import Mathlib

/-!
Verification of the iSCSI `ScsiDevice` lifecycle utilities of
`longhorn-engine` (`util/util.go`): construction, the Startup and Shutdown
call sequences over the external iSCSI collaborator, block-device-node
duplication, and the guarded device removal.  External collaborators
(`go-iscsi-helper`, the OS) are modelled as black-box result environments;
each lifecycle function additionally returns the ordered trace of
collaborator calls it performed, so that ordering and short-circuiting
can be stated.
-/

namespace LonghornUtil

/-- Errors returned by collaborators and the OS, carried as message strings
(Go `error` values, compared by message). -/
abbrev Err := String

/-- One invocation of an external collaborator, with the arguments the
source passes at the call site. -/
inductive Call where
  | newNamespaceExecutor (path : String)
  | checkForInitiatorExistence
  | startDaemon (force : Bool)
  | createTarget (tid : Int) (target : String)
  | addLun (tid lun : Int) (backingFile bsType bsOpts : String)
  | bindInitiator (tid : Int) (acl : String)
  | discoverTarget (portal target : String)
  | loginTarget (portal target : String)
  | getDevice (portal target : String) (lun : Int)
  | logoutTarget (portal target : String)
  | deleteDiscoveredTarget (portal target : String)
  | unbindInitiator (tid : Int) (acl : String)
  | deleteLun (tid lun : Int)
  | deleteTarget (tid : Int)
  deriving Repr, DecidableEq

/-- The `ScsiDevice` struct of `util.go`. -/
structure ScsiDevice where
  Target : String
  TargetID : Int
  LunID : Int
  Device : String
  Portal : String
  BackingFile : String
  BSType : String
  BSOpts : String
  deriving Repr, DecidableEq

/-- Results the external iSCSI collaborator returns for each operation
during one lifecycle call.  Operations that in Go return only `error` are
`Option Err` (`none` = success); `GetDevice` returns a Go pair
`(string, error)`, modelled as `String × Option Err`. -/
structure IscsiEnv where
  newNamespaceExecutor : Option Err
  checkForInitiatorExistence : Option Err
  startDaemon : Option Err
  createTarget : Option Err
  addLun : Option Err
  bindInitiator : Option Err
  discoverTarget : Option Err
  loginTarget : Option Err
  getDevice : String × Option Err
  logoutTarget : Option Err
  deleteDiscoveredTarget : Option Err
  unbindInitiator : Option Err
  deleteLun : Option Err
  deleteTarget : Option Err
  deriving Repr, DecidableEq

/-- Outcome of `NewScsiDevice`: a constructed device, a returned error, or
a Go runtime panic (the source indexes `ips[0]` without a length check, so
a successful address resolution that yields zero addresses crashes). -/
inductive ConstructResult where
  | ok (dev : ScsiDevice)
  | err (e : Err)
  | crash
  deriving Repr, DecidableEq

/-- `NewScsiDevice(name, backingFile, bsType, bsOpts)` from `util.go`,
with the collaborator `iutil.GetLocalIPs()` supplied as a black-box result
(`Except` error, or the list of local IP address strings). -/
def NewScsiDevice (getLocalIPs : Except Err (List String))
    (name backingFile bsType bsOpts : String) : ConstructResult :=
  let dev : ScsiDevice :=
    { Target := "iqn.2014-07.com.rancher:" ++ name
      TargetID := 1
      LunID := 1
      Device := ""
      Portal := ""
      BackingFile := backingFile
      BSType := bsType
      BSOpts := bsOpts }
  match getLocalIPs with
  | .error e => .err e
  | .ok [] => .crash
  | .ok (ip :: _) => .ok { dev with Portal := ip }

/-- `(dev *ScsiDevice) Startup()` from `util.go`: the nine collaborator
calls in source order, each failure returning that error at once.  Returns
the device after the call, the returned error (`none` = nil), and the
ordered trace of collaborator calls made.  The last step mirrors the Go
multi-assignment `dev.Device, err = iscsi.GetDevice(...)`: `Device` is
assigned the returned string before the error is tested. -/
def ScsiDevice.Startup (env : IscsiEnv) (dev : ScsiDevice) :
    ScsiDevice × Option Err × List Call :=
  match env.newNamespaceExecutor with
  | some e => (dev, some e, [.newNamespaceExecutor "/host/proc/1/ns/"])
  | none =>
  match env.checkForInitiatorExistence with
  | some e => (dev, some e,
      [.newNamespaceExecutor "/host/proc/1/ns/", .checkForInitiatorExistence])
  | none =>
  match env.startDaemon with
  | some e => (dev, some e,
      [.newNamespaceExecutor "/host/proc/1/ns/", .checkForInitiatorExistence,
       .startDaemon false])
  | none =>
  match env.createTarget with
  | some e => (dev, some e,
      [.newNamespaceExecutor "/host/proc/1/ns/", .checkForInitiatorExistence,
       .startDaemon false, .createTarget dev.TargetID dev.Target])
  | none =>
  match env.addLun with
  | some e => (dev, some e,
      [.newNamespaceExecutor "/host/proc/1/ns/", .checkForInitiatorExistence,
       .startDaemon false, .createTarget dev.TargetID dev.Target,
       .addLun dev.TargetID dev.LunID dev.BackingFile dev.BSType dev.BSOpts])
  | none =>
  match env.bindInitiator with
  | some e => (dev, some e,
      [.newNamespaceExecutor "/host/proc/1/ns/", .checkForInitiatorExistence,
       .startDaemon false, .createTarget dev.TargetID dev.Target,
       .addLun dev.TargetID dev.LunID dev.BackingFile dev.BSType dev.BSOpts,
       .bindInitiator dev.TargetID "ALL"])
  | none =>
  match env.discoverTarget with
  | some e => (dev, some e,
      [.newNamespaceExecutor "/host/proc/1/ns/", .checkForInitiatorExistence,
       .startDaemon false, .createTarget dev.TargetID dev.Target,
       .addLun dev.TargetID dev.LunID dev.BackingFile dev.BSType dev.BSOpts,
       .bindInitiator dev.TargetID "ALL", .discoverTarget dev.Portal dev.Target])
  | none =>
  match env.loginTarget with
  | some e => (dev, some e,
      [.newNamespaceExecutor "/host/proc/1/ns/", .checkForInitiatorExistence,
       .startDaemon false, .createTarget dev.TargetID dev.Target,
       .addLun dev.TargetID dev.LunID dev.BackingFile dev.BSType dev.BSOpts,
       .bindInitiator dev.TargetID "ALL", .discoverTarget dev.Portal dev.Target,
       .loginTarget dev.Portal dev.Target])
  | none =>
  match env.getDevice.2 with
  | some e => ({ dev with Device := env.getDevice.1 }, some e,
      [.newNamespaceExecutor "/host/proc/1/ns/", .checkForInitiatorExistence,
       .startDaemon false, .createTarget dev.TargetID dev.Target,
       .addLun dev.TargetID dev.LunID dev.BackingFile dev.BSType dev.BSOpts,
       .bindInitiator dev.TargetID "ALL", .discoverTarget dev.Portal dev.Target,
       .loginTarget dev.Portal dev.Target,
       .getDevice dev.Portal dev.Target dev.LunID])
  | none => ({ dev with Device := env.getDevice.1 }, none,
      [.newNamespaceExecutor "/host/proc/1/ns/", .checkForInitiatorExistence,
       .startDaemon false, .createTarget dev.TargetID dev.Target,
       .addLun dev.TargetID dev.LunID dev.BackingFile dev.BSType dev.BSOpts,
       .bindInitiator dev.TargetID "ALL", .discoverTarget dev.Portal dev.Target,
       .loginTarget dev.Portal dev.Target,
       .getDevice dev.Portal dev.Target dev.LunID])

/-- `(dev *ScsiDevice) Shutdown()` from `util.go`: the guard on
`dev.Device == ""`, then the teardown calls in source order, with
`dev.Device = ""` executed right after a successful `LogoutTarget` and
before `DeleteDiscoveredTarget`. -/
def ScsiDevice.Shutdown (env : IscsiEnv) (dev : ScsiDevice) :
    ScsiDevice × Option Err × List Call :=
  if dev.Device = "" then
    (dev, some "SCSI Device is already down", [])
  else
  match env.newNamespaceExecutor with
  | some e => (dev, some e, [.newNamespaceExecutor "/host/proc/1/ns/"])
  | none =>
  match env.checkForInitiatorExistence with
  | some e => (dev, some e,
      [.newNamespaceExecutor "/host/proc/1/ns/", .checkForInitiatorExistence])
  | none =>
  match env.logoutTarget with
  | some e => (dev, some e,
      [.newNamespaceExecutor "/host/proc/1/ns/", .checkForInitiatorExistence,
       .logoutTarget dev.Portal dev.Target])
  | none =>
  let dev' := { dev with Device := "" }
  match env.deleteDiscoveredTarget with
  | some e => (dev', some e,
      [.newNamespaceExecutor "/host/proc/1/ns/", .checkForInitiatorExistence,
       .logoutTarget dev.Portal dev.Target,
       .deleteDiscoveredTarget dev.Portal dev.Target])
  | none =>
  match env.unbindInitiator with
  | some e => (dev', some e,
      [.newNamespaceExecutor "/host/proc/1/ns/", .checkForInitiatorExistence,
       .logoutTarget dev.Portal dev.Target,
       .deleteDiscoveredTarget dev.Portal dev.Target,
       .unbindInitiator dev.TargetID "ALL"])
  | none =>
  match env.deleteLun with
  | some e => (dev', some e,
      [.newNamespaceExecutor "/host/proc/1/ns/", .checkForInitiatorExistence,
       .logoutTarget dev.Portal dev.Target,
       .deleteDiscoveredTarget dev.Portal dev.Target,
       .unbindInitiator dev.TargetID "ALL", .deleteLun dev.TargetID dev.LunID])
  | none =>
  match env.deleteTarget with
  | some e => (dev', some e,
      [.newNamespaceExecutor "/host/proc/1/ns/", .checkForInitiatorExistence,
       .logoutTarget dev.Portal dev.Target,
       .deleteDiscoveredTarget dev.Portal dev.Target,
       .unbindInitiator dev.TargetID "ALL", .deleteLun dev.TargetID dev.LunID,
       .deleteTarget dev.TargetID])
  | none => (dev', none,
      [.newNamespaceExecutor "/host/proc/1/ns/", .checkForInitiatorExistence,
       .logoutTarget dev.Portal dev.Target,
       .deleteDiscoveredTarget dev.Portal dev.Target,
       .unbindInitiator dev.TargetID "ALL", .deleteLun dev.TargetID dev.LunID,
       .deleteTarget dev.TargetID])

/-- Record of the node-creation call `unix.Mknod` as issued by `mknod` in
`util.go`: the path, the major/minor pair, the mode word
(`0600 | unix.S_IFBLK`) and the encoded device number. -/
structure MknodCall where
  device : String
  major : Nat
  minor : Nat
  fileMode : Nat
  devnum : Nat
  deriving Repr, DecidableEq

/-- The device-number encoding of `mknod` in `util.go`:
`(major << 8) | (minor & 0xff) | ((minor & 0xfff00) << 12)`, computed in a
64-bit machine word. -/
def mknodDevnum (major minor : Nat) : Nat :=
  ((major <<< 8) ||| (minor &&& 0xff) ||| ((minor &&& 0xfff00) <<< 12)) % 2 ^ 64

/-- `mknod(device, major, minor)` from `util.go`: builds the mode
`0600 | unix.S_IFBLK` and the encoded device number and issues the
node-creation call, whose OS result is supplied as a black box. -/
def mknod (osMknod : Option Err) (device : String) (major minor : Nat) :
    Option Err × MknodCall :=
  let fileMode : Nat := 0o600 ||| 0x6000
  (osMknod,
   { device := device, major := major, minor := minor,
     fileMode := fileMode, devnum := mknodDevnum major minor })

/-- `DuplicateDevice(src, dest)` from `util.go`: stat the source (black-box
result: an error, or the `Rdev` device identifier), split it as
`major = Rdev / 256`, `minor = Rdev % 256`, and create the destination
node.  Returns the returned error and the node-creation call made, if
any. -/
def DuplicateDevice (statResult : Except Err Nat) (osMknod : Option Err)
    (dest : String) : Option Err × Option MknodCall :=
  match statResult with
  | .error e => (some e, none)
  | .ok rdev =>
    let major := rdev / 256
    let minor := rdev % 256
    let r := mknod osMknod dest major minor
    (r.1, some r.2)

/-- Stat failure for `RemoveDevice`: the path does not exist, or any other
OS error. -/
inductive StatError where
  | notExist
  | other (msg : Err)
  deriving Repr, DecidableEq

/-- `RemoveDevice(dev)` from `util.go`: stat the path (black-box result);
only when stat succeeds is the bounded removal `remove(dev)` invoked
(its result supplied as a black box, a removal failure being wrapped in a
new message); on any stat failure it returns nil at once.  The boolean
records whether `remove` was invoked. -/
def RemoveDevice (statResult : Option StatError) (removeResult : Option Err)
    (dev : String) : Option Err × Bool :=
  match statResult with
  | none =>
    (match removeResult with
     | some e => some ("Failed to removing device " ++ dev ++ ", " ++ e)
     | none => none, true)
  | some _ => (none, false)

/-- Spec-side description of the Startup sequence (from the spec's ordered
step list): the nine collaborator calls in their prescribed order, paired
with the error each would return.  Used only to compare `Startup` against
the spec's ordering/short-circuiting words. -/
def startupSpecCalls (env : IscsiEnv) (dev : ScsiDevice) :
    List (Call × Option Err) :=
  [(.newNamespaceExecutor "/host/proc/1/ns/", env.newNamespaceExecutor),
   (.checkForInitiatorExistence, env.checkForInitiatorExistence),
   (.startDaemon false, env.startDaemon),
   (.createTarget dev.TargetID dev.Target, env.createTarget),
   (.addLun dev.TargetID dev.LunID dev.BackingFile dev.BSType dev.BSOpts,
    env.addLun),
   (.bindInitiator dev.TargetID "ALL", env.bindInitiator),
   (.discoverTarget dev.Portal dev.Target, env.discoverTarget),
   (.loginTarget dev.Portal dev.Target, env.loginTarget),
   (.getDevice dev.Portal dev.Target dev.LunID, env.getDevice.2)]

/-- Spec-side runner (from the spec's words "each step strictly ordered and
each failure short-circuiting the remainder"): performs the listed calls in
order, stopping at the first one that fails and returning its error
verbatim. -/
def runFirstFailure : List (Call × Option Err) → List Call × Option Err
  | [] => ([], none)
  | (c, some e) :: _ => ([c], some e)
  | (c, none) :: rest =>
    let r := runFirstFailure rest
    (c :: r.1, r.2)

/-- First error in a list of step results (`none` when every step
succeeded). -/
def firstErr : List (Option Err) → Option Err
  | [] => none
  | some e :: _ => some e
  | none :: rest => firstErr rest

/-- Environment in which every collaborator call succeeds and the resolved
device path is `/dev/sdc`. -/
def allOkEnv : IscsiEnv :=
  { newNamespaceExecutor := none
    checkForInitiatorExistence := none
    startDaemon := none
    createTarget := none
    addLun := none
    bindInitiator := none
    discoverTarget := none
    loginTarget := none
    getDevice := ("/dev/sdc", none)
    logoutTarget := none
    deleteDiscoveredTarget := none
    unbindInitiator := none
    deleteLun := none
    deleteTarget := none }

/-- A freshly constructed device (as `NewScsiDevice` builds it for name
`vol1` and first local address `10.0.0.1`). -/
def sampleDev : ScsiDevice :=
  { Target := "iqn.2014-07.com.rancher:vol1"
    TargetID := 1
    LunID := 1
    Device := ""
    Portal := "10.0.0.1"
    BackingFile := "/var/lib/vol1.img"
    BSType := "file"
    BSOpts := "" }

/-- A device in the attached state (`Device` non-empty). -/
def attachedDev : ScsiDevice :=
  { sampleDev with Device := "/dev/sdc" }

/-- C1 (counterexample): when local-address resolution succeeds but yields
an empty list, `NewScsiDevice` crashes on the unchecked `ips[0]` index
instead of returning a resolution error. -/
theorem newScsiDevice_empty_ips_crashes :
    NewScsiDevice (Except.ok []) "vol1" "/var/lib/vol1.img" "file" "" =
      ConstructResult.crash := rfl

/-- C1 (amended): if address resolution returns an error, construction
fails with that error; if it returns at least one address, the device is
built with `Portal` equal to the first address (and the fixed
`Target`/`TargetID`/`LunID` fields); if it succeeds with zero addresses,
construction crashes rather than returning an error. -/
theorem newScsiDevice_characterization
    (getLocalIPs : Except Err (List String)) (name bf bst bso : String) :
    (∀ e, getLocalIPs = .error e →
        NewScsiDevice getLocalIPs name bf bst bso = .err e) ∧
    (∀ ip rest, getLocalIPs = .ok (ip :: rest) →
        NewScsiDevice getLocalIPs name bf bst bso =
          .ok { Target := "iqn.2014-07.com.rancher:" ++ name, TargetID := 1,
                LunID := 1, Device := "", Portal := ip, BackingFile := bf,
                BSType := bst, BSOpts := bso }) ∧
    (getLocalIPs = .ok [] →
        NewScsiDevice getLocalIPs name bf bst bso = .crash) := by
  refine ⟨fun e h => ?_, fun ip rest h => ?_, fun h => ?_⟩ <;> subst h <;> rfl

/-- Witness for the amended C1 at a one-address resolution result. -/
theorem newScsiDevice_characterization_witness :
    NewScsiDevice (Except.ok ["10.0.0.1"]) "vol1" "/var/lib/vol1.img"
        "file" "" =
      ConstructResult.ok
        { Target := "iqn.2014-07.com.rancher:" ++ "vol1", TargetID := 1,
          LunID := 1, Device := "", Portal := "10.0.0.1",
          BackingFile := "/var/lib/vol1.img", BSType := "file",
          BSOpts := "" } :=
  (newScsiDevice_characterization (Except.ok ["10.0.0.1"]) "vol1"
      "/var/lib/vol1.img" "file" "").2.1 "10.0.0.1" [] rfl

/-- C4: `Shutdown` on a device with `Device == ""` fails immediately with
the already-down error, makes no collaborator calls (empty trace) and
leaves every field of the device unchanged, whatever the collaborator
environment would have answered. -/
theorem shutdown_already_down (env : IscsiEnv) (dev : ScsiDevice)
    (h : dev.Device = "") :
    ScsiDevice.Shutdown env dev =
      (dev, some "SCSI Device is already down", []) := by
  simp [ScsiDevice.Shutdown, h]

/-- Witness for C4 on a freshly constructed device in the all-success
environment. -/
theorem shutdown_already_down_witness :
    ScsiDevice.Shutdown allOkEnv sampleDev =
      (sampleDev, some "SCSI Device is already down", []) :=
  shutdown_already_down allOkEnv sampleDev rfl

/-- C7: when stat reports that the path does not exist, `RemoveDevice`
returns nil without invoking the bounded removal (so no timeout wait),
whatever the removal would have returned. -/
theorem removeDevice_nonexistent (removeResult : Option Err) (dev : String) :
    RemoveDevice (some StatError.notExist) removeResult dev =
      (none, false) := rfl

/-- C10: any stat failure at all — not only non-existence, e.g. a
permission error — makes `RemoveDevice` return nil without attempting
removal. -/
theorem removeDevice_any_stat_error (err : StatError)
    (removeResult : Option Err) (dev : String) :
    RemoveDevice (some err) removeResult dev = (none, false) := rfl

/-- The `mknod` device-number encoding inverts the `DuplicateDevice`
major/minor split exactly: because `minor = rdev % 256 < 256`, the
`minor & 0xff` term is `minor`, the extended-minor term is zero, and the
reassembled word is the original identifier. -/
theorem mknodDevnum_split (rdev : Nat) :
    ((rdev / 256) <<< 8) ||| ((rdev % 256) &&& 0xff) |||
        (((rdev % 256) &&& 0xfff00) <<< 12) = rdev := by
  have h1 : rdev % 256 &&& 0xff = rdev % 256 := by
    have h : (0xff : Nat) = 2 ^ 8 - 1 := by norm_num
    rw [h, Nat.and_pow_two_sub_one_eq_mod]
    omega
  have h2 : rdev % 256 &&& 0xfff00 = 0 := by
    apply Nat.eq_of_testBit_eq
    intro i
    simp only [Nat.testBit_land, Nat.zero_testBit]
    rcases Nat.lt_or_ge i 8 with hi | hi
    · have hb : (0xfff00 : Nat).testBit i = false := by
        rw [show (0xfff00 : Nat) = 2 ^ 8 * 0xfff by norm_num,
          Nat.testBit_mul_pow_two]
        simp [Nat.not_le.mpr hi]
      simp [hb]
    · have hb : (rdev % 256).testBit i = false := by
        apply Nat.testBit_lt_two_pow
        calc rdev % 256 < 256 := Nat.mod_lt _ (by norm_num)
          _ ≤ 2 ^ i := by
            calc (256 : Nat) = 2 ^ 8 := by norm_num
              _ ≤ 2 ^ i := Nat.pow_le_pow_right (by norm_num) hi
      simp [hb]
  rw [h1, h2]
  simp only [Nat.zero_shiftLeft, Nat.or_zero]
  rw [Nat.shiftLeft_eq,
    show rdev / 256 * 2 ^ 8 = 2 ^ 8 * (rdev / 256) from Nat.mul_comm _ _,
    ← Nat.mul_add_lt_is_or (show rdev % 256 < 2 ^ 8 by omega) (rdev / 256)]
  omega

/-- C6: for a stat that succeeds with identifier `rdev` (any 64-bit
value), `DuplicateDevice` issues exactly one node-creation call for the
destination with `major = rdev / 256`, `minor = rdev % 256`, mode
`0600 | S_IFBLK`, and an encoded device number equal to `rdev` itself
(the round trip), while passing the OS result through. -/
theorem duplicateDevice_roundtrip (rdev : Nat) (h : rdev < 2 ^ 64)
    (osMknod : Option Err) (dest : String) :
    DuplicateDevice (Except.ok rdev) osMknod dest =
      (osMknod, some { device := dest, major := rdev / 256,
                       minor := rdev % 256, fileMode := 0o600 ||| 0x6000,
                       devnum := rdev }) := by
  have hd : mknodDevnum (rdev / 256) (rdev % 256) = rdev := by
    show (((rdev / 256) <<< 8) ||| ((rdev % 256) &&& 0xff) |||
        (((rdev % 256) &&& 0xfff00) <<< 12)) % 2 ^ 64 = rdev
    rw [mknodDevnum_split rdev]
    exact Nat.mod_eq_of_lt h
  simp [DuplicateDevice, mknod, hd]

/-- Witness for C6 at `rdev = 2049` (major 8, minor 1). -/
theorem duplicateDevice_roundtrip_witness :
    DuplicateDevice (Except.ok 2049) none "/dev/vol1" =
      (none, some { device := "/dev/vol1", major := 2049 / 256,
                    minor := 2049 % 256, fileMode := 0o600 ||| 0x6000,
                    devnum := 2049 }) :=
  duplicateDevice_roundtrip 2049 (by norm_num) none "/dev/vol1"

/-- C2 (counterexample): starting from `Device == ""`, a failure of the
final device-path resolution step makes `Startup` return the error while
`Device` has already been assigned the string the collaborator returned
alongside the error — the Go multi-assignment
`dev.Device, err = iscsi.GetDevice(...)` runs before the error check. -/
theorem startup_resolution_failure_sets_device :
    sampleDev.Device = "" ∧
    (ScsiDevice.Startup
        { allOkEnv with getDevice := ("/dev/sdc", some "resolve failed") }
        sampleDev).2.1 = some "resolve failed" ∧
    (ScsiDevice.Startup
        { allOkEnv with getDevice := ("/dev/sdc", some "resolve failed") }
        sampleDev).1.Device = "/dev/sdc" :=
  ⟨rfl, rfl, rfl⟩

/-- C2 (amended): starting from `Device == ""`, if `Startup` fails at any
of the first eight steps, `Device` is still `""`; if it fails at the
ninth (device-path resolution) step, `Device` holds the string returned
by that collaborator together with the error — so it is `""` exactly when
that returned string is empty (as under the Go convention of returning
the zero value with an error). -/
theorem startup_failure_device_characterization (env : IscsiEnv)
    (dev : ScsiDevice) (h : dev.Device = "") (e : Err)
    (hfail : (ScsiDevice.Startup env dev).2.1 = some e) :
    (ScsiDevice.Startup env dev).1.Device = "" ∨
      ((ScsiDevice.Startup env dev).1.Device = env.getDevice.1 ∧
        env.getDevice.2 = some e) := by
  obtain ⟨a1, a2, a3, a4, a5, a6, a7, a8, g, lt, dd, ub, dl, dt⟩ := env
  obtain ⟨gd, ge⟩ := g
  cases a1 <;> cases a2 <;> cases a3 <;> cases a4 <;> cases a5 <;>
    cases a6 <;> cases a7 <;> cases a8 <;> cases ge <;>
    simp_all [ScsiDevice.Startup]

/-- Witness for the amended C2 at a create-target failure: the device
field is untouched. -/
theorem startup_failure_device_characterization_witness :
    (ScsiDevice.Startup { allOkEnv with createTarget := some "tgt exists" }
        sampleDev).1.Device = "" ∨
      ((ScsiDevice.Startup { allOkEnv with createTarget := some "tgt exists" }
          sampleDev).1.Device =
          ({ allOkEnv with createTarget := some "tgt exists" } :
            IscsiEnv).getDevice.1 ∧
        ({ allOkEnv with createTarget := some "tgt exists" } :
          IscsiEnv).getDevice.2 = some "tgt exists") :=
  startup_failure_device_characterization _ sampleDev rfl "tgt exists" rfl

/-- C3: on an attached device, `Shutdown` leaves the record unchanged and
returns the failing step's error when the executor acquisition, the
initiator check, or the logout fails; once logout has succeeded, `Device`
is `""` whatever happens later, and the returned error is the first
failure (if any) among delete-discovered-target, unbind-ACL, delete-LUN
and delete-target. -/
theorem shutdown_clears_device_after_logout (env : IscsiEnv)
    (dev : ScsiDevice) (h : dev.Device ≠ "") :
    (env.newNamespaceExecutor ≠ none →
        ScsiDevice.Shutdown env dev =
          (dev, env.newNamespaceExecutor,
           [.newNamespaceExecutor "/host/proc/1/ns/"])) ∧
    (env.newNamespaceExecutor = none →
      env.checkForInitiatorExistence ≠ none →
        ScsiDevice.Shutdown env dev =
          (dev, env.checkForInitiatorExistence,
           [.newNamespaceExecutor "/host/proc/1/ns/",
            .checkForInitiatorExistence])) ∧
    (env.newNamespaceExecutor = none →
      env.checkForInitiatorExistence = none →
      env.logoutTarget ≠ none →
        ScsiDevice.Shutdown env dev =
          (dev, env.logoutTarget,
           [.newNamespaceExecutor "/host/proc/1/ns/",
            .checkForInitiatorExistence,
            .logoutTarget dev.Portal dev.Target])) ∧
    (env.newNamespaceExecutor = none →
      env.checkForInitiatorExistence = none →
      env.logoutTarget = none →
        (ScsiDevice.Shutdown env dev).1.Device = "" ∧
        (ScsiDevice.Shutdown env dev).2.1 =
          firstErr [env.deleteDiscoveredTarget, env.unbindInitiator,
                    env.deleteLun, env.deleteTarget]) := by
  obtain ⟨a1, a2, a3, a4, a5, a6, a7, a8, g, lt, dd, ub, dl, dt⟩ := env
  cases a1 <;> cases a2 <;> cases lt <;> cases dd <;> cases ub <;>
    cases dl <;> cases dt <;>
    simp_all [ScsiDevice.Shutdown, firstErr]

/-- Witness for C3: with only the delete-LUN step failing, the device is
cleared and the delete-LUN error is returned. -/
theorem shutdown_clears_device_after_logout_witness :
    (ScsiDevice.Shutdown { allOkEnv with deleteLun := some "lun busy" }
        attachedDev).1.Device = "" ∧
    (ScsiDevice.Shutdown { allOkEnv with deleteLun := some "lun busy" }
        attachedDev).2.1 =
      firstErr [none, none, some "lun busy", none] :=
  (shutdown_clears_device_after_logout _ attachedDev
      (by simp [attachedDev, sampleDev])).2.2.2 rfl rfl rfl

/-- C5: `Startup` performs exactly the spec's nine collaborator calls in
the prescribed order, stopping at the first failing call and returning
that call's error verbatim (refinement of the spec-side first-failure
runner over the ordered step list). -/
theorem startup_ordered_short_circuit (env : IscsiEnv) (dev : ScsiDevice) :
    ((ScsiDevice.Startup env dev).2.2, (ScsiDevice.Startup env dev).2.1) =
      runFirstFailure (startupSpecCalls env dev) := by
  obtain ⟨a1, a2, a3, a4, a5, a6, a7, a8, g, lt, dd, ub, dl, dt⟩ := env
  obtain ⟨gd, ge⟩ := g
  cases a1 <;> cases a2 <;> cases a3 <;> cases a4 <;> cases a5 <;>
    cases a6 <;> cases a7 <;> cases a8 <;> cases ge <;>
    simp [ScsiDevice.Startup, startupSpecCalls, runFirstFailure]

/-- C9: `Startup` has no state guard: whatever `Device` currently holds
(attached or not), when every collaborator call succeeds the full
nine-call sequence is executed and `Device` is overwritten with the newly
resolved path. -/
theorem startup_no_guard (env : IscsiEnv) (dev : ScsiDevice)
    (h1 : env.newNamespaceExecutor = none)
    (h2 : env.checkForInitiatorExistence = none)
    (h3 : env.startDaemon = none) (h4 : env.createTarget = none)
    (h5 : env.addLun = none) (h6 : env.bindInitiator = none)
    (h7 : env.discoverTarget = none) (h8 : env.loginTarget = none)
    (h9 : env.getDevice.2 = none) :
    ScsiDevice.Startup env dev =
      ({ dev with Device := env.getDevice.1 }, none,
       [.newNamespaceExecutor "/host/proc/1/ns/", .checkForInitiatorExistence,
        .startDaemon false, .createTarget dev.TargetID dev.Target,
        .addLun dev.TargetID dev.LunID dev.BackingFile dev.BSType dev.BSOpts,
        .bindInitiator dev.TargetID "ALL",
        .discoverTarget dev.Portal dev.Target,
        .loginTarget dev.Portal dev.Target,
        .getDevice dev.Portal dev.Target dev.LunID]) := by
  simp [ScsiDevice.Startup, h1, h2, h3, h4, h5, h6, h7, h8, h9]

/-- Witness for C9: an already-attached device (`Device = "/dev/sdc"`) is
restarted in an all-success environment resolving `/dev/sdd`, and its
`Device` is overwritten. -/
theorem startup_no_guard_witness :
    ScsiDevice.Startup { allOkEnv with getDevice := ("/dev/sdd", none) }
        attachedDev =
      ({ attachedDev with
          Device := ({ allOkEnv with getDevice := ("/dev/sdd", none) } :
            IscsiEnv).getDevice.1 }, none,
       [.newNamespaceExecutor "/host/proc/1/ns/", .checkForInitiatorExistence,
        .startDaemon false, .createTarget attachedDev.TargetID attachedDev.Target,
        .addLun attachedDev.TargetID attachedDev.LunID attachedDev.BackingFile
          attachedDev.BSType attachedDev.BSOpts,
        .bindInitiator attachedDev.TargetID "ALL",
        .discoverTarget attachedDev.Portal attachedDev.Target,
        .loginTarget attachedDev.Portal attachedDev.Target,
        .getDevice attachedDev.Portal attachedDev.Target attachedDev.LunID]) :=
  startup_no_guard { allOkEnv with getDevice := ("/dev/sdd", none) }
    attachedDev rfl rfl rfl rfl rfl rfl rfl rfl rfl

end LonghornUtil
